import Mathlib

/-!
Shallow embedding of the ClearSlot conflict-detection and reputation-scoring
service, translated from `src/server.js` (the primary variant) and, for
the repeat-overlap classification, from the draft variant
`src/unnamed/part_004`.

Modelling conventions:
* Timestamps are minutes since an arbitrary epoch, as `Int`.  The JS code
  computes `endTime = startTime.getTime() + durationMinutes * 60000` in
  milliseconds and SQL adds `(duration_minutes || ' minutes')::interval`;
  in minutes both become `start + duration`.
* Euro amounts are integer euro cents (0.02 € = 2, 0.03 € = 3), keeping
  the fixed price table exact.
* `secureHash` (sha256 of `input + pepper`) is a fixed deterministic
  function once the pepper is configured; it is passed as an explicit
  function argument `h : String → String`.
* SQL tables are lists of rows; `INSERT` appends, `UPDATE` maps over rows,
  `SELECT ... LIMIT 1` is `List.find?` / `List.any`.
* JS truthiness checks on the request's string fields (`if (!platform_id)`)
  become emptiness checks; `reservation_time` is modelled already parsed
  (so `validateISO` holds), and `identity_scope` is modelled by the typed
  enum `Scope` (so `validateScope` holds).
-/

namespace ClearSlot

/-- identity_scope values accepted by `validateScope`: 'local' or 'global'. -/
inductive Scope where
  | local_
  | global_
deriving Repr, DecidableEq

/-- String form of a scope, as it appears in requests and responses. -/
def scopeStr : Scope → String
  | Scope.local_ => "local"
  | Scope.global_ => "global"

/-- active_bookings.status values used by the code. -/
inductive BookingStatus where
  | confirmed
  | cancelled
deriving Repr, DecidableEq

/-- behavior_events.event_type values used by the code. -/
inductive EventType where
  | overlap
  | repeat_overlap
  | late_cancel
  | no_show
deriving Repr, DecidableEq

/-- behavior_events.severity values used by the code. -/
inductive Severity where
  | mild
  | medium
  | high
deriving Repr, DecidableEq

/-- A row of the active_bookings table. -/
structure ActiveBooking where
  customer_hash : String
  restaurant_hash : String
  platform_id : String
  identity_scope : Scope
  reservation_time : Int
  duration_minutes : Int
  status : BookingStatus
deriving Repr, DecidableEq

/-- A row of the behavior_events table (the generated uuid id is omitted:
no code path reads it). -/
structure BehaviorEvent where
  customer_hash : String
  platform_id : String
  identity_scope : Scope
  event_type : EventType
  severity : Severity
  score_delta : Int
  occurred_at : Int
  expires_at : Int
  restaurant_hash : String
deriving Repr, DecidableEq

/-- A row of the billing_ledger table.  Amounts are in euro cents so that
they stay exact integers: the JS prices 0.02 €, 0.03 € and 0.00 € become
2, 3 and 0. -/
structure BillingEntry where
  platform_id : String
  restaurant_hash : String
  event_type : String
  amount_cents : Int
deriving Repr, DecidableEq

/-- The JSON body stored and replayed for booking responses:
`{ ok, signal, message }`. -/
structure Response where
  ok : Bool
  signal : String
  message : String
deriving Repr, DecidableEq

/-- A row of the idempotency_keys table. -/
structure IdempotencyRecord where
  idempotency_key : String
  response_body : Response
  status_code : Int
deriving Repr, DecidableEq

/-- The relational state touched by the server.js handlers. -/
structure DBState where
  active_bookings : List ActiveBooking
  behavior_events : List BehaviorEvent
  billing_ledger : List BillingEntry
  idempotency_keys : List IdempotencyRecord
deriving Repr, DecidableEq

/-- The empty database. -/
def emptyDB : DBState := ⟨[], [], [], []⟩

/-- Minutes in one day; SQL `interval 'k days'` becomes `k * minutesPerDay`. -/
def minutesPerDay : Int := 1440

/-- HTTP outcome of a handler: either an `error(res, code, message, status)`
response or a JSON reply with a status code and a `Response` body. -/
inductive Outcome where
  | clientError (code : String) (status : Int)
  | reply (status : Int) (body : Response)
deriving Repr, DecidableEq

/- ============================
   BILLING (server.js recordBillableEvent)
============================ -/

/-- The PRICES table of `recordBillableEvent`, in euro cents
(signal_check 0.02 € = 2, coordination_booking 0.03 € = 3,
data_report 0.00 € = 0), with the JS `PRICES[type] || 0` fallback for
unknown types. -/
def priceOf (t : String) : Int :=
  if t = "signal_check" then 2
  else if t = "coordination_booking" then 3
  else if t = "data_report" then 0
  else 0

/-- server.js `recordBillableEvent`: appends one billing_ledger row when the
price of the event type is positive, otherwise does nothing. -/
def recordBillableEvent (db : DBState) (platform_id restaurant_hash t : String) :
    DBState :=
  let amount := priceOf t
  if 0 < amount then
    { db with billing_ledger :=
        db.billing_ledger ++ [⟨platform_id, restaurant_hash, t, amount⟩] }
  else db

/- ============================
   IDEMPOTENCY (server.js checkIdempotency / storeIdempotency)
============================ -/

/-- server.js `checkIdempotency`: the stored record for a key, if any. -/
def checkIdempotency (db : DBState) (key : String) : Option IdempotencyRecord :=
  db.idempotency_keys.find? (fun r => decide (r.idempotency_key = key))

/-- server.js `storeIdempotency`: inserts one idempotency_keys row. -/
def storeIdempotency (db : DBState) (key : String) (body : Response) (status : Int) :
    DBState :=
  { db with idempotency_keys := db.idempotency_keys ++ [⟨key, body, status⟩] }

/- ============================
   CONFLICT CHECK (server.js checkTimeConflict)
============================ -/

/-- The row filter of the `checkTimeConflict` query: same customer hash,
status 'confirmed', `reservation_time < endTime` and
`reservation_time + duration_minutes > startTime`. -/
def conflictRow (secure_cust : String) (startTime endTime : Int)
    (b : ActiveBooking) : Bool :=
  decide (b.customer_hash = secure_cust) &&
  decide (b.status = BookingStatus.confirmed) &&
  decide (b.reservation_time < endTime) &&
  decide (b.reservation_time + b.duration_minutes > startTime)

/-- server.js `checkTimeConflict`: true iff some active_bookings row passes
the conflict filter for the candidate interval. -/
def checkTimeConflict (db : DBState) (secure_cust : String)
    (startTime durationMinutes : Int) : Bool :=
  let endTime := startTime + durationMinutes
  db.active_bookings.any (conflictRow secure_cust startTime endTime)

/- ============================
   CREATE BOOKING (server.js POST /booking/create)
============================ -/

/-- A create-booking request after JSON parsing: the Idempotency-Key header
(absent modelled as `none`) and the destructured body with its JS defaults
(`duration_minutes = 120`, `identity_scope = 'local'`) already applied. -/
structure CreateRequest where
  idempotency_key : Option String
  platform_id : String
  customer_hash : String
  restaurant_hash : String
  reservation_time : Int
  duration_minutes : Int
  identity_scope : Scope
deriving Repr, DecidableEq

/-- The 409 body of the conflict branch. -/
def overlapResponse : Response :=
  ⟨false, "OVERLAP_DETECTED",
   "Coordination signal returned. Additional confirmation recommended."⟩

/-- The 200 body of the success branch. -/
def confirmedResponse : Response :=
  ⟨true, "BOOKING_CONFIRMED", "Coordination signal returned."⟩

/-- server.js POST /booking/create, one transaction, sequential semantics.
`h` is `secureHash` with the configured pepper, `now` is NOW(). -/
def createBooking (h : String → String) (now : Int) (db : DBState)
    (req : CreateRequest) : DBState × Outcome :=
  if req.idempotency_key.getD "" = "" then
    (db, Outcome.clientError "IDEMPOTENCY_REQUIRED" 400)
  else if req.platform_id = "" then
    (db, Outcome.clientError "INVALID_PLATFORM_ID" 400)
  else if req.customer_hash = "" then
    (db, Outcome.clientError "INVALID_CUSTOMER_HASH" 400)
  else if req.restaurant_hash = "" then
    (db, Outcome.clientError "INVALID_RESTAURANT_HASH" 400)
  else
    let key := req.idempotency_key.getD ""
    match checkIdempotency db key with
    | some r => (db, Outcome.reply r.status_code r.response_body)
    | none =>
      let secure_cust := h req.customer_hash
      let secure_rest := h req.restaurant_hash
      -- Always bill signal layer
      let db1 := recordBillableEvent db req.platform_id secure_rest "signal_check"
      if checkTimeConflict db1 secure_cust req.reservation_time req.duration_minutes then
        let ev : BehaviorEvent :=
          ⟨secure_cust, req.platform_id, req.identity_scope,
           EventType.overlap, Severity.mild, -10,
           now, now + 14 * minutesPerDay, secure_rest⟩
        let db2 := { db1 with behavior_events := db1.behavior_events ++ [ev] }
        let db3 := storeIdempotency db2 key overlapResponse 409
        (db3, Outcome.reply 409 overlapResponse)
      else
        let booking : ActiveBooking :=
          ⟨secure_cust, secure_rest, req.platform_id, req.identity_scope,
           req.reservation_time, req.duration_minutes, BookingStatus.confirmed⟩
        let db2 := { db1 with active_bookings := db1.active_bookings ++ [booking] }
        let db3 := recordBillableEvent db2 req.platform_id secure_rest "coordination_booking"
        let db4 := storeIdempotency db3 key confirmedResponse 200
        (db4, Outcome.reply 200 confirmedResponse)

/- ============================
   CANCEL BOOKING (server.js POST /booking/cancel)
============================ -/

/-- A cancel request body with its JS default scope applied. -/
structure CancelRequest where
  platform_id : String
  customer_hash : String
  restaurant_hash : String
  reservation_time : Int
  identity_scope : Scope
deriving Repr, DecidableEq

/-- The row filter of the cancel UPDATE: same customer hash, same
reservation_time, status 'confirmed'. -/
def cancelMatch (secure_cust : String) (t : Int) (b : ActiveBooking) : Bool :=
  decide (b.customer_hash = secure_cust) &&
  decide (b.reservation_time = t) &&
  decide (b.status = BookingStatus.confirmed)

/-- The 200 body of the cancel endpoint (server.js always sends this signal). -/
def cancelledResponse : Response :=
  ⟨true, "BOOKING_CANCELLED", "Coordination signal returned."⟩

/-- server.js POST /booking/cancel.  The code computes
`hoursUntil = (resTime - now) / 36e5` (exact real division of the
millisecond difference) and tests `hoursUntil < 2 && hoursUntil > -1`;
with `minutesUntil = reservation_time - now` in minutes this is exactly
`minutesUntil < 120 ∧ minutesUntil > -60` (see
`lateCancelWindow_iff_hours` below). -/
def cancelBooking (h : String → String) (now : Int) (db : DBState)
    (req : CancelRequest) : DBState × Outcome :=
  if req.platform_id = "" ∨ req.customer_hash = "" ∨
      req.restaurant_hash = "" then
    (db, Outcome.clientError "INVALID_REQUEST" 400)
  else
    let secure_cust := h req.customer_hash
    let secure_rest := h req.restaurant_hash
    let minutesUntil : Int := req.reservation_time - now
    let rowCount :=
      (db.active_bookings.filter (cancelMatch secure_cust req.reservation_time)).length
    if rowCount = 0 then
      (db, Outcome.clientError "NOT_FOUND" 404)
    else
      let db1 := { db with active_bookings :=
        db.active_bookings.map (fun b =>
          if cancelMatch secure_cust req.reservation_time b then
            { b with status := BookingStatus.cancelled }
          else b) }
      let db2 :=
        if minutesUntil < 120 ∧ minutesUntil > -60 then
          { db1 with behavior_events := db1.behavior_events ++
            [⟨secure_cust, req.platform_id, req.identity_scope,
              EventType.late_cancel, Severity.medium, -15,
              now, now + 30 * minutesPerDay, secure_rest⟩] }
        else db1
      (db2, Outcome.reply 200 cancelledResponse)

/- ============================
   REPORT NO-SHOW (server.js POST /event/no-show)
============================ -/

/-- A no-show report body with its JS default scope applied. -/
structure NoShowRequest where
  platform_id : String
  customer_hash : String
  restaurant_hash : String
  identity_scope : Scope
deriving Repr, DecidableEq

/-- The 200 body of the no-show endpoint. -/
def noShowResponse : Response :=
  ⟨true, "NO_SHOW_RECORDED", "Score adjustment event recorded."⟩

/-- server.js POST /event/no-show: inserts one no_show behavior event
(-30, high, 365 days) and bills a zero-priced data_report. -/
def reportNoShow (h : String → String) (now : Int) (db : DBState)
    (req : NoShowRequest) : DBState × Outcome :=
  if req.platform_id = "" ∨ req.customer_hash = "" ∨
      req.restaurant_hash = "" then
    (db, Outcome.clientError "INVALID_REQUEST" 400)
  else
    let secure_cust := h req.customer_hash
    let secure_rest := h req.restaurant_hash
    let db1 := { db with behavior_events := db.behavior_events ++
      [⟨secure_cust, req.platform_id, req.identity_scope,
        EventType.no_show, Severity.high, -30,
        now, now + 365 * minutesPerDay, secure_rest⟩] }
    let db2 := recordBillableEvent db1 req.platform_id secure_rest "data_report"
    (db2, Outcome.reply 200 noShowResponse)

/- ============================
   SCORE (server.js GET /score/:customer_hash)
============================ -/

/-- The WHERE clause of the score query: same customer hash, same scope,
`expires_at > NOW()`. -/
def activeEventRow (secure_cust : String) (scope : Scope) (now : Int)
    (e : BehaviorEvent) : Bool :=
  decide (e.customer_hash = secure_cust) &&
  decide (e.identity_scope = scope) &&
  decide (e.expires_at > now)

/-- The score value computed by the GET /score query:
`GREATEST(0, LEAST(100, 100 + COALESCE(SUM(score_delta), 0)))` over the
unexpired events of the identity in the requested scope.  The handler's
`result.rows[0].score || 100` fallback never alters this value: the
GREATEST makes the aggregate non-NULL and at least 0, and node-pg delivers
the bigint aggregate as a nonempty (truthy) decimal string. -/
def scoreValue (db : DBState) (secure_cust : String) (scope : Scope)
    (now : Int) : Int :=
  max 0 (min 100
    (100 + ((db.behavior_events.filter (activeEventRow secure_cust scope now)).map
      BehaviorEvent.score_delta).sum))

/-- A JSON value appearing in the score reply. -/
inductive JsonVal where
  | num (n : Int)
  | str (s : String)
deriving Repr, DecidableEq

/-- A GET /score request: path param, query params (restaurant_hash
optional, scope defaulted to 'local'). -/
structure ScoreRequest where
  customer_hash : String
  platform_id : String
  identity_scope : Scope
  restaurant_hash : Option String
deriving Repr, DecidableEq

/-- Outcome of GET /score: a client error or the JSON object sent by
`res.json({ score: ..., scope: ... })`, as an ordered field list. -/
inductive ScoreOutcome where
  | clientError (code : String) (status : Int)
  | reply (fields : List (String × JsonVal))
deriving Repr, DecidableEq

/-- server.js GET /score/:customer_hash. -/
def getScore (h : String → String) (now : Int) (db : DBState)
    (req : ScoreRequest) : DBState × ScoreOutcome :=
  if req.platform_id = "" then
    (db, ScoreOutcome.clientError "INVALID_PLATFORM_ID" 400)
  else
    let secure_cust := h req.customer_hash
    let secure_rest :=
      match req.restaurant_hash with
      | some r => h r
      | none => "unknown"
    let score := scoreValue db secure_cust req.identity_scope now
    let db1 := recordBillableEvent db req.platform_id secure_rest "signal_check"
    (db1, ScoreOutcome.reply
      [("score", JsonVal.num score), ("scope", JsonVal.str (scopeStr req.identity_scope))])

/- ============================
   DRAFT VARIANT src/unnamed/part_004: customer_scores table,
   SCORE_RULES, hasRecentOverlap and the POST /event/overlap handler
============================ -/

/-- A row of part_004's customer_scores table.  Modelled from the spec:
the customer_scores schema (its DDL is not in src/); §3 of the design
fixes `score` as an integer initialized at 100 on first creation. -/
structure ScoreRow where
  customer_hash : String
  platform_id : String
  identity_scope : Scope
  score : Int
deriving Repr, DecidableEq

/-- The state touched by part_004's handlers. -/
structure P4State where
  customer_scores : List ScoreRow
  behavior_events : List BehaviorEvent
deriving Repr, DecidableEq

/-- The WHERE clause shared by part_004's customer_scores queries:
`customer_hash = $1 AND identity_scope = $2 AND
(identity_scope = 'global' OR platform_id = $3)`. -/
def scoreRowMatch (sc platform : String) (scope : Scope) (r : ScoreRow) : Bool :=
  decide (r.customer_hash = sc) &&
  decide (r.identity_scope = scope) &&
  (decide (scope = Scope.global_) || decide (r.platform_id = platform))

/-- part_004 `getOrCreateScore`: ensures a customer_scores row exists,
inserting one (at the schema-default score 100) when absent. -/
def getOrCreateScore (st : P4State) (sc platform : String) (scope : Scope) :
    P4State :=
  match st.customer_scores.find? (scoreRowMatch sc platform scope) with
  | some _ => st
  | none => { st with customer_scores :=
      st.customer_scores ++ [⟨sc, platform, scope, 100⟩] }

/-- part_004 `hasRecentOverlap`: an unexpired overlap or repeat_overlap
event exists for the identity in this scope (platform-filtered unless the
scope is global). -/
def hasRecentOverlap (st : P4State) (sc platform : String) (scope : Scope)
    (now : Int) : Bool :=
  st.behavior_events.any (fun e =>
    decide (e.customer_hash = sc) &&
    (decide (e.event_type = EventType.overlap) ||
     decide (e.event_type = EventType.repeat_overlap)) &&
    decide (e.expires_at > now) &&
    decide (e.identity_scope = scope) &&
    (decide (scope = Scope.global_) || decide (e.platform_id = platform)))

/-- An entry of part_004's SCORE_RULES policy table. -/
structure ScoreRule where
  delta : Int
  severity : Severity
  ttlDays : Int
deriving Repr, DecidableEq

/-- part_004 SCORE_RULES: the three event types it prices; `late_cancel`
has no entry in that table. -/
def SCORE_RULES : EventType → Option ScoreRule
  | EventType.overlap => some ⟨-10, Severity.mild, 14⟩
  | EventType.repeat_overlap => some ⟨-20, Severity.medium, 90⟩
  | EventType.no_show => some ⟨-30, Severity.high, 365⟩
  | EventType.late_cancel => none

/-- part_004 `applyBehaviorEvent`: inserts a behavior event priced by
SCORE_RULES (`expires = now + ttlDays` days) and clamps the matching
customer_scores rows by the rule delta.  The handlers only call it with
types present in SCORE_RULES, so the `none` branch is unreachable there. -/
def applyBehaviorEvent (st : P4State) (sc platform : String) (scope : Scope)
    (t : EventType) (rest : String) (now : Int) : P4State :=
  match SCORE_RULES t with
  | none => st
  | some rule =>
    let ev : BehaviorEvent :=
      ⟨sc, platform, scope, t, rule.severity, rule.delta,
       now, now + rule.ttlDays * minutesPerDay, rest⟩
    let st1 := { st with behavior_events := st.behavior_events ++ [ev] }
    { st1 with customer_scores := st1.customer_scores.map (fun r =>
        if scoreRowMatch sc platform scope r then
          { r with score := max 0 (min 100 (r.score + rule.delta)) }
        else r) }

/-- part_004 POST /event/overlap: ensure the score row, classify the event
as repeat_overlap when an unexpired overlap-family event exists, apply it,
and answer `{ ok: true, event: type }`. -/
def eventOverlap (h : String → String) (now : Int) (st : P4State)
    (customer platform rest : String) (scope : Scope) : P4State × EventType :=
  let sc := h customer
  let sr := h rest
  let st1 := getOrCreateScore st sc platform scope
  let isRepeat := hasRecentOverlap st1 sc platform scope now
  let t := if isRepeat then EventType.repeat_overlap else EventType.overlap
  (applyBehaviorEvent st1 sc platform scope t sr now, t)

/- ============================
   DERIVED ROWS, ITERATION, INVARIANT
============================ -/

/-- The overlap behavior event created on the conflict branch of
POST /booking/create. -/
def overlapEvent (h : String → String) (now : Int) (req : CreateRequest) :
    BehaviorEvent :=
  ⟨h req.customer_hash, req.platform_id, req.identity_scope,
   EventType.overlap, Severity.mild, -10,
   now, now + 14 * minutesPerDay, h req.restaurant_hash⟩

/-- The confirmed active_bookings row created on the success branch of
POST /booking/create. -/
def newBookingRow (h : String → String) (req : CreateRequest) : ActiveBooking :=
  ⟨h req.customer_hash, h req.restaurant_hash, req.platform_id,
   req.identity_scope, req.reservation_time, req.duration_minutes,
   BookingStatus.confirmed⟩

/-- The signal_check billing row of POST /booking/create (0.02 € = 2 cents). -/
def signalCheckEntry (h : String → String) (req : CreateRequest) : BillingEntry :=
  ⟨req.platform_id, h req.restaurant_hash, "signal_check", 2⟩

/-- The coordination_booking billing row of POST /booking/create
(0.03 € = 3 cents). -/
def coordinationEntry (h : String → String) (req : CreateRequest) : BillingEntry :=
  ⟨req.platform_id, h req.restaurant_hash, "coordination_booking", 3⟩

/-- The late_cancel behavior event of POST /booking/cancel
(-15, medium, 30 days). -/
def lateCancelEvent (h : String → String) (now : Int) (req : CancelRequest) :
    BehaviorEvent :=
  ⟨h req.customer_hash, req.platform_id, req.identity_scope,
   EventType.late_cancel, Severity.medium, -15,
   now, now + 30 * minutesPerDay, h req.restaurant_hash⟩

/-- The no_show behavior event of POST /event/no-show
(-30, high, 365 days). -/
def noShowEvent (h : String → String) (now : Int) (req : NoShowRequest) :
    BehaviorEvent :=
  ⟨h req.customer_hash, req.platform_id, req.identity_scope,
   EventType.no_show, Severity.high, -30,
   now, now + 365 * minutesPerDay, h req.restaurant_hash⟩

/-- n successive POST /event/no-show calls for the same request, starting
from the empty database. -/
def iterNoShow (h : String → String) (now : Int) (req : NoShowRequest) :
    Nat → DBState
  | 0 => emptyDB
  | n + 1 => (reportNoShow h now (iterNoShow h now req n) req).1

/-- Two bookings do not violate the double-booking invariant: they are not
both confirmed for the same identity on intersecting half-open intervals
(the intersection test is the symmetric form of the conflict query). -/
def noMutualOverlap (b1 b2 : ActiveBooking) : Prop :=
  b1.customer_hash = b2.customer_hash → b1.status = BookingStatus.confirmed →
  b2.status = BookingStatus.confirmed →
  ¬(b1.reservation_time < b2.reservation_time + b2.duration_minutes ∧
    b1.reservation_time + b1.duration_minutes > b2.reservation_time)

/- ============================
   CONCRETE INSTANCES USED BY WITNESSES AND COUNTEREXAMPLES
============================ -/

/-- A state with one confirmed booking [600, 720) for identity hash "c". -/
def oneBookingDB : DBState :=
  ⟨[⟨"c", "r", "P1", Scope.local_, 600, 120, BookingStatus.confirmed⟩],
   [], [], []⟩

/-- A create request [630, 690) for customer "c" on platform P1
(hash function `id` in the instances, so the stored hash is "c"). -/
def midRequest : CreateRequest :=
  ⟨some "k1", "P1", "c", "r", 630, 60, Scope.local_⟩

/-- A state whose single confirmed booking for "c" sits on platform P2. -/
def crossPlatformDB : DBState :=
  ⟨[⟨"c", "r", "P2", Scope.local_, 600, 120, BookingStatus.confirmed⟩],
   [], [], []⟩

/-- A state holding both a confirmed booking [600, 720) for "c" and an
unexpired overlap behavior event for "c" in local scope on P1. -/
def recentOverlapDB : DBState :=
  ⟨[⟨"c", "r", "P1", Scope.local_, 600, 120, BookingStatus.confirmed⟩],
   [⟨"c", "P1", Scope.local_, EventType.overlap, Severity.mild, -10,
     -1000, 19160, "r"⟩],
   [], []⟩

/-- A state with one confirmed booking starting 30 minutes from time 0. -/
def soonBookingDB : DBState :=
  ⟨[⟨"c", "r", "P1", Scope.local_, 30, 120, BookingStatus.confirmed⟩],
   [], [], []⟩

/-- The cancel request for the booking of `soonBookingDB`. -/
def soonCancelReq : CancelRequest := ⟨"P1", "c", "r", 30, Scope.local_⟩

/-- A no-show report used to iterate the score downwards. -/
def plainNoShowReq : NoShowRequest := ⟨"P1", "c", "r", Scope.local_⟩

/-- A score request for customer "c" on platform P1, local scope. -/
def plainScoreReq : ScoreRequest := ⟨"c", "P1", Scope.local_, none⟩

/-- A part_004 state with an unexpired overlap event for "c" on P1. -/
def recentOverlapP4 : P4State :=
  ⟨[⟨"c", "P1", Scope.local_, 80⟩],
   [⟨"c", "P1", Scope.local_, EventType.overlap, Severity.mild, -10,
     -1000, 19160, "r"⟩]⟩

/-- A create request touching the end of the booking of `oneBookingDB`:
it starts exactly at minute 720. -/
def touchingRequest : CreateRequest :=
  ⟨some "k6", "P1", "c", "r", 720, 60, Scope.local_⟩

end ClearSlot

namespace ClearSlot

/- ============================
   HELPER LEMMAS
============================ -/

/-- Billing never touches the active_bookings table. -/
theorem recordBillableEvent_active_bookings (db : DBState) (p r t : String) :
    (recordBillableEvent db p r t).active_bookings = db.active_bookings := by
  simp only [recordBillableEvent]
  split <;> rfl

/-- Billing never touches the behavior_events table. -/
theorem recordBillableEvent_behavior_events (db : DBState) (p r t : String) :
    (recordBillableEvent db p r t).behavior_events = db.behavior_events := by
  simp only [recordBillableEvent]
  split <;> rfl

/-- The conflict check only reads active_bookings, so billing first does not
change its result. -/
theorem checkTimeConflict_record (db : DBState) (p r t sc : String)
    (s d : Int) :
    checkTimeConflict (recordBillableEvent db p r t) sc s d =
      checkTimeConflict db sc s d := by
  unfold checkTimeConflict
  rw [recordBillableEvent_active_bookings]

/-- The conflict row filter, read back as a proposition. -/
theorem conflictRow_iff (sc : String) (s e : Int) (b : ActiveBooking) :
    conflictRow sc s e b = true ↔
      b.customer_hash = sc ∧ b.status = BookingStatus.confirmed ∧
      b.reservation_time < e ∧ b.reservation_time + b.duration_minutes > s := by
  simp [conflictRow, and_assoc]

/-- The conflict check, read back as a proposition over the table. -/
theorem checkTimeConflict_iff (db : DBState) (sc : String) (s d : Int) :
    checkTimeConflict db sc s d = true ↔
      ∃ b ∈ db.active_bookings,
        b.customer_hash = sc ∧ b.status = BookingStatus.confirmed ∧
        b.reservation_time < s + d ∧ b.reservation_time + b.duration_minutes > s := by
  simp [checkTimeConflict, List.any_eq_true, conflictRow_iff]

/-- Looking up a key in a state whose key table is the old table plus one
record for that key finds the new record, provided the key was previously
absent. -/
theorem checkIdempotency_of_keys (db db' : DBState) (rec : IdempotencyRecord)
    (key : String)
    (hkeys : db'.idempotency_keys = db.idempotency_keys ++ [rec])
    (hrec : rec.idempotency_key = key)
    (hfresh : checkIdempotency db key = none) :
    checkIdempotency db' key = some rec := by
  unfold checkIdempotency at *
  rw [hkeys, List.find?_append, hfresh]
  simp [List.find?, hrec]

/-- Billing a signal_check appends one 2-cent row. -/
theorem recordBillableEvent_signal_check (db : DBState) (p r : String) :
    recordBillableEvent db p r "signal_check" =
      { db with billing_ledger := db.billing_ledger ++ [⟨p, r, "signal_check", 2⟩] } := by
  have hp2 : priceOf "signal_check" = 2 := by decide
  simp [recordBillableEvent, hp2]

/-- Billing a coordination_booking appends one 3-cent row. -/
theorem recordBillableEvent_coordination (db : DBState) (p r : String) :
    recordBillableEvent db p r "coordination_booking" =
      { db with billing_ledger :=
          db.billing_ledger ++ [⟨p, r, "coordination_booking", 3⟩] } := by
  have hp3 : priceOf "coordination_booking" = 3 := by decide
  simp [recordBillableEvent, hp3]

/-- A data_report is priced at zero, so billing it appends nothing. -/
theorem recordBillableEvent_data_report (db : DBState) (p r : String) :
    recordBillableEvent db p r "data_report" = db := by
  have hp0 : priceOf "data_report" = 0 := by decide
  simp [recordBillableEvent, hp0]

/-- The integer window test used in `cancelBooking` is exactly the JS test
`hoursUntil < 2 && hoursUntil > -1` on the exact rational
`hoursUntil = minutesUntil / 60`. -/
theorem lateCancelWindow_iff_hours (m : Int) :
    (m < 120 ∧ m > -60) ↔ ((m : ℚ) / 60 < 2 ∧ (m : ℚ) / 60 > -1) := by
  have h60 : (0 : ℚ) < 60 := by norm_num
  rw [gt_iff_lt, gt_iff_lt, div_lt_iff₀ h60, lt_div_iff₀ h60]
  constructor
  · rintro ⟨h1, h2⟩
    refine ⟨?_, ?_⟩
    · have : (m : ℚ) < 120 := by exact_mod_cast h1
      linarith
    · have : (-60 : ℚ) < m := by exact_mod_cast h2
      linarith
  · rintro ⟨h1, h2⟩
    have hm1 : (m : ℚ) < 120 := by linarith
    have hm2 : (-60 : ℚ) < (m : ℚ) := by linarith
    exact ⟨by exact_mod_cast hm1, by exact_mod_cast hm2⟩

/-- Full description of POST /booking/create on a request that passes
validation and is not an idempotency replay: one equation per branch of the
conflict check. -/
theorem createBooking_valid_eq (h : String → String) (now : Int) (db : DBState)
    (req : CreateRequest)
    (hkey : req.idempotency_key.getD "" ≠ "")
    (hp : req.platform_id ≠ "")
    (hc : req.customer_hash ≠ "")
    (hr : req.restaurant_hash ≠ "")
    (hfresh : checkIdempotency db (req.idempotency_key.getD "") = none) :
    createBooking h now db req =
      if checkTimeConflict db (h req.customer_hash) req.reservation_time
          req.duration_minutes then
        (⟨db.active_bookings,
          db.behavior_events ++ [overlapEvent h now req],
          db.billing_ledger ++ [signalCheckEntry h req],
          db.idempotency_keys ++
            [⟨req.idempotency_key.getD "", overlapResponse, 409⟩]⟩,
         Outcome.reply 409 overlapResponse)
      else
        (⟨db.active_bookings ++ [newBookingRow h req],
          db.behavior_events,
          db.billing_ledger ++ [signalCheckEntry h req, coordinationEntry h req],
          db.idempotency_keys ++
            [⟨req.idempotency_key.getD "", confirmedResponse, 200⟩]⟩,
         Outcome.reply 200 confirmedResponse) := by
  unfold createBooking
  rw [if_neg hkey, if_neg hp, if_neg hc, if_neg hr]
  simp only [hfresh, checkTimeConflict_record]
  simp only [recordBillableEvent_signal_check, recordBillableEvent_coordination]
  split
  · simp [storeIdempotency, overlapEvent, signalCheckEntry]
  · simp [storeIdempotency, newBookingRow, signalCheckEntry, coordinationEntry]

/-- POST /booking/create on a request whose key already has a stored
record: the transaction commits without side effects and the stored
status/body is replayed. -/
theorem createBooking_replay (h : String → String) (now : Int) (db : DBState)
    (req : CreateRequest) (rec : IdempotencyRecord)
    (hkey : req.idempotency_key.getD "" ≠ "")
    (hp : req.platform_id ≠ "")
    (hc : req.customer_hash ≠ "")
    (hr : req.restaurant_hash ≠ "")
    (hhit : checkIdempotency db (req.idempotency_key.getD "") = some rec) :
    createBooking h now db req =
      (db, Outcome.reply rec.status_code rec.response_body) := by
  unfold createBooking
  rw [if_neg hkey, if_neg hp, if_neg hc, if_neg hr]
  simp only [hhit]

/-- Full description of POST /booking/cancel on a valid request matching at
least one confirmed row: one equation per branch of the late-cancel window
test. -/
theorem cancelBooking_valid_eq (h : String → String) (now : Int) (db : DBState)
    (req : CancelRequest)
    (hp : req.platform_id ≠ "")
    (hc : req.customer_hash ≠ "")
    (hr : req.restaurant_hash ≠ "")
    (hfound : (db.active_bookings.filter
      (cancelMatch (h req.customer_hash) req.reservation_time)).length ≠ 0) :
    cancelBooking h now db req =
      (let cancelled := db.active_bookings.map (fun b =>
          if cancelMatch (h req.customer_hash) req.reservation_time b then
            { b with status := BookingStatus.cancelled }
          else b)
       if req.reservation_time - now < 120 ∧ req.reservation_time - now > -60 then
         (⟨cancelled,
           db.behavior_events ++ [lateCancelEvent h now req],
           db.billing_ledger, db.idempotency_keys⟩,
          Outcome.reply 200 cancelledResponse)
       else
         (⟨cancelled, db.behavior_events,
           db.billing_ledger, db.idempotency_keys⟩,
          Outcome.reply 200 cancelledResponse)) := by
  have hval : ¬(req.platform_id = "" ∨ req.customer_hash = "" ∨
      req.restaurant_hash = "") := by
    intro hcase
    rcases hcase with h1 | h2 | h3
    · exact hp h1
    · exact hc h2
    · exact hr h3
  unfold cancelBooking
  rw [if_neg hval, if_neg hfound]
  split
  · simp [lateCancelEvent]
  · simp

/-- POST /event/no-show on a valid request appends exactly the no_show
event and nothing else (its data_report billing is zero-priced). -/
theorem reportNoShow_valid_eq (h : String → String) (now : Int) (db : DBState)
    (req : NoShowRequest)
    (hp : req.platform_id ≠ "")
    (hc : req.customer_hash ≠ "")
    (hr : req.restaurant_hash ≠ "") :
    reportNoShow h now db req =
      ({ db with behavior_events := db.behavior_events ++ [noShowEvent h now req] },
       Outcome.reply 200 noShowResponse) := by
  have hval : ¬(req.platform_id = "" ∨ req.customer_hash = "" ∨
      req.restaurant_hash = "") := by
    intro hcase
    rcases hcase with h1 | h2 | h3
    · exact hp h1
    · exact hc h2
    · exact hr h3
  unfold reportNoShow
  rw [if_neg hval]
  simp only [recordBillableEvent_data_report]
  simp [noShowEvent]

/-- part_004's getOrCreateScore never touches behavior_events. -/
theorem getOrCreateScore_behavior_events (st : P4State) (sc platform : String)
    (scope : Scope) :
    (getOrCreateScore st sc platform scope).behavior_events =
      st.behavior_events := by
  unfold getOrCreateScore
  split <;> rfl

/-- The behavior_events table after n no-show reports from the empty
database is n copies of the no_show event. -/
theorem iterNoShow_events (h : String → String) (now : Int)
    (req : NoShowRequest)
    (hp : req.platform_id ≠ "")
    (hc : req.customer_hash ≠ "")
    (hr : req.restaurant_hash ≠ "") (n : Nat) :
    (iterNoShow h now req n).behavior_events =
      List.replicate n (noShowEvent h now req) := by
  induction n with
  | zero => rfl
  | succ k ih =>
    show ((reportNoShow h now (iterNoShow h now req k) req).1).behavior_events = _
    rw [reportNoShow_valid_eq h now _ req hp hc hr]
    simp [ih, List.replicate_succ']

/- ============================
   CLAIM THEOREMS
============================ -/

/-- C1: for every identity and every state in which a confirmed booking
overlapping the half-open candidate interval [start, start+duration)
already exists for that identity's hash, a validated non-replayed
createBooking returns signal OVERLAP_DETECTED with status 409 and inserts
no new ActiveBooking row; consequently the pairwise no-double-booking
invariant on confirmed rows is preserved, so two confirmed overlapping
bookings of one identity cannot both have been accepted. -/
theorem c1_overlap_rejected_no_insert (h : String → String) (now : Int)
    (db : DBState) (req : CreateRequest)
    (hkey : req.idempotency_key.getD "" ≠ "")
    (hp : req.platform_id ≠ "")
    (hc : req.customer_hash ≠ "")
    (hr : req.restaurant_hash ≠ "")
    (hfresh : checkIdempotency db (req.idempotency_key.getD "") = none)
    (b : ActiveBooking) (hb : b ∈ db.active_bookings)
    (hbh : b.customer_hash = h req.customer_hash)
    (hbs : b.status = BookingStatus.confirmed)
    (hov1 : b.reservation_time < req.reservation_time + req.duration_minutes)
    (hov2 : b.reservation_time + b.duration_minutes > req.reservation_time) :
    (createBooking h now db req).2 = Outcome.reply 409 overlapResponse ∧
    overlapResponse.signal = "OVERLAP_DETECTED" ∧
    (createBooking h now db req).1.active_bookings = db.active_bookings ∧
    (List.Pairwise noMutualOverlap db.active_bookings →
      List.Pairwise noMutualOverlap
        (createBooking h now db req).1.active_bookings) := by
  have hconf : checkTimeConflict db (h req.customer_hash) req.reservation_time
      req.duration_minutes = true :=
    (checkTimeConflict_iff db _ _ _).mpr ⟨b, hb, hbh, hbs, hov1, hov2⟩
  rw [createBooking_valid_eq h now db req hkey hp hc hr hfresh, if_pos hconf]
  exact ⟨rfl, rfl, rfl, fun hpw => hpw⟩

/-- C1 witness: a confirmed booking [600, 720) for hash "c" makes the
overlapping request [630, 690) come back as a 409 OVERLAP_DETECTED with
the bookings table unchanged. -/
theorem c1_overlap_rejected_no_insert_witness :
    (createBooking id 0 oneBookingDB midRequest).2 =
      Outcome.reply 409 overlapResponse ∧
    overlapResponse.signal = "OVERLAP_DETECTED" ∧
    (createBooking id 0 oneBookingDB midRequest).1.active_bookings =
      oneBookingDB.active_bookings ∧
    (List.Pairwise noMutualOverlap oneBookingDB.active_bookings →
      List.Pairwise noMutualOverlap
        (createBooking id 0 oneBookingDB midRequest).1.active_bookings) :=
  c1_overlap_rejected_no_insert id 0 oneBookingDB midRequest
    (by decide) (by decide) (by decide) (by decide) rfl
    ⟨"c", "r", "P1", Scope.local_, 600, 120, BookingStatus.confirmed⟩
    (by decide) (by decide) (by decide) (by decide) (by decide)

/-- C3: a second createBooking with the same idempotency key after a first
completed (validated, initially fresh-keyed) call returns exactly the
first call's status and body and leaves the whole database state
untouched: no new booking row, no billing entry, no behavior event. -/
theorem c3_replay_returns_stored_no_side_effects (h : String → String)
    (now now2 : Int) (db : DBState) (req : CreateRequest)
    (hkey : req.idempotency_key.getD "" ≠ "")
    (hp : req.platform_id ≠ "")
    (hc : req.customer_hash ≠ "")
    (hr : req.restaurant_hash ≠ "")
    (hfresh : checkIdempotency db (req.idempotency_key.getD "") = none) :
    createBooking h now2 (createBooking h now db req).1 req =
      createBooking h now db req := by
  rw [createBooking_valid_eq h now db req hkey hp hc hr hfresh]
  split
  · exact createBooking_replay h now2 _ req
      ⟨req.idempotency_key.getD "", overlapResponse, 409⟩ hkey hp hc hr
      (checkIdempotency_of_keys db _ _ _ rfl rfl hfresh)
  · exact createBooking_replay h now2 _ req
      ⟨req.idempotency_key.getD "", confirmedResponse, 200⟩ hkey hp hc hr
      (checkIdempotency_of_keys db _ _ _ rfl rfl hfresh)

/-- C3 witness: replaying the confirmed booking request "k1" at a later
time returns the same pair of state and response. -/
theorem c3_replay_returns_stored_no_side_effects_witness :
    createBooking id 5 (createBooking id 0 emptyDB midRequest).1 midRequest =
      createBooking id 0 emptyDB midRequest :=
  c3_replay_returns_stored_no_side_effects id 0 5 emptyDB midRequest
    (by decide) (by decide) (by decide) (by decide) rfl

/-- C6: when the database holds exactly one booking that ends exactly at
the candidate's start time T (half-open semantics), a validated
non-replayed createBooking succeeds with BOOKING_CONFIRMED and appends the
new confirmed row. -/
theorem c6_touching_intervals_confirmed (h : String → String) (now : Int)
    (db : DBState) (req : CreateRequest) (b : ActiveBooking)
    (hkey : req.idempotency_key.getD "" ≠ "")
    (hp : req.platform_id ≠ "")
    (hc : req.customer_hash ≠ "")
    (hr : req.restaurant_hash ≠ "")
    (hfresh : checkIdempotency db (req.idempotency_key.getD "") = none)
    (hdb : db.active_bookings = [b])
    (htouch : b.reservation_time + b.duration_minutes = req.reservation_time) :
    (createBooking h now db req).2 = Outcome.reply 200 confirmedResponse ∧
    confirmedResponse.signal = "BOOKING_CONFIRMED" ∧
    (createBooking h now db req).1.active_bookings =
      db.active_bookings ++ [newBookingRow h req] := by
  have hnoconf : ¬(checkTimeConflict db (h req.customer_hash)
      req.reservation_time req.duration_minutes = true) := by
    intro hcontra
    obtain ⟨b', hb', _, _, _, hov2⟩ := (checkTimeConflict_iff db _ _ _).mp hcontra
    rw [hdb, List.mem_singleton] at hb'
    subst hb'
    rw [htouch] at hov2
    exact lt_irrefl _ hov2
  rw [createBooking_valid_eq h now db req hkey hp hc hr hfresh, if_neg hnoconf]
  exact ⟨rfl, rfl, rfl⟩

/-- C6 witness: with the booking ending at minute 720 in place, the request
starting exactly at minute 720 is confirmed. -/
theorem c6_touching_intervals_confirmed_witness :
    (createBooking id 0 oneBookingDB touchingRequest).2 =
      Outcome.reply 200 confirmedResponse ∧
    confirmedResponse.signal = "BOOKING_CONFIRMED" ∧
    (createBooking id 0 oneBookingDB touchingRequest).1.active_bookings =
      oneBookingDB.active_bookings ++ [newBookingRow id touchingRequest] :=
  c6_touching_intervals_confirmed id 0 oneBookingDB touchingRequest
    ⟨"c", "r", "P1", Scope.local_, 600, 120, BookingStatus.confirmed⟩
    (by decide) (by decide) (by decide) (by decide) rfl (by decide) (by decide)

/-- C10: every validated, non-replayed createBooking appends exactly one
signal_check billing row (0.02 € = 2 cents) first — also on the
OVERLAP_DETECTED rejection path — and only the confirmed path additionally
appends one coordination_booking row (0.03 € = 3 cents) after it. -/
theorem c10_signal_check_always_billed (h : String → String) (now : Int)
    (db : DBState) (req : CreateRequest)
    (hkey : req.idempotency_key.getD "" ≠ "")
    (hp : req.platform_id ≠ "")
    (hc : req.customer_hash ≠ "")
    (hr : req.restaurant_hash ≠ "")
    (hfresh : checkIdempotency db (req.idempotency_key.getD "") = none) :
    (checkTimeConflict db (h req.customer_hash) req.reservation_time
        req.duration_minutes = true →
      (createBooking h now db req).1.billing_ledger =
        db.billing_ledger ++ [signalCheckEntry h req]) ∧
    (checkTimeConflict db (h req.customer_hash) req.reservation_time
        req.duration_minutes = false →
      (createBooking h now db req).1.billing_ledger =
        db.billing_ledger ++ [signalCheckEntry h req, coordinationEntry h req]) ∧
    signalCheckEntry h req =
      ⟨req.platform_id, h req.restaurant_hash, "signal_check", 2⟩ ∧
    coordinationEntry h req =
      ⟨req.platform_id, h req.restaurant_hash, "coordination_booking", 3⟩ := by
  rw [createBooking_valid_eq h now db req hkey hp hc hr hfresh]
  refine ⟨?_, ?_, rfl, rfl⟩
  · intro hconf
    rw [if_pos hconf]
  · intro hconf
    rw [if_neg (by simp [hconf])]

/-- C10 witness: the rejected request [630, 690) against the booking
[600, 720) still leaves exactly one signal_check billing row. -/
theorem c10_signal_check_always_billed_witness :
    (checkTimeConflict oneBookingDB "c" 630 60 = true →
      (createBooking id 0 oneBookingDB midRequest).1.billing_ledger =
        oneBookingDB.billing_ledger ++ [signalCheckEntry id midRequest]) ∧
    (checkTimeConflict oneBookingDB "c" 630 60 = false →
      (createBooking id 0 oneBookingDB midRequest).1.billing_ledger =
        oneBookingDB.billing_ledger ++
          [signalCheckEntry id midRequest, coordinationEntry id midRequest]) ∧
    signalCheckEntry id midRequest = ⟨"P1", "r", "signal_check", 2⟩ ∧
    coordinationEntry id midRequest = ⟨"P1", "r", "coordination_booking", 3⟩ :=
  c10_signal_check_always_billed id 0 oneBookingDB midRequest
    (by decide) (by decide) (by decide) (by decide) rfl

/-- C7 counterexample: with one confirmed booking [600, 720) for hash "c",
the zero-duration candidate at minute 660 — strictly inside — is reported
as a conflict, refuting that a zero-duration candidate never overlaps
anything. -/
theorem c7_zero_duration_conflict_cex :
    checkTimeConflict oneBookingDB "c" 660 0 = true ∧
    (600 : Int) < 660 ∧ (660 : Int) < 720 := by
  decide

/-- C7 amended: a zero-duration candidate is reported as a conflict exactly
when its start lies strictly inside the half-open interval of some
confirmed booking of the same identity hash; at or outside every such
interval (including its endpoints) it never conflicts. -/
theorem c7_zero_duration_conflict_iff (db : DBState) (sc : String) (s : Int) :
    checkTimeConflict db sc s 0 = true ↔
      ∃ b ∈ db.active_bookings,
        b.customer_hash = sc ∧ b.status = BookingStatus.confirmed ∧
        b.reservation_time < s ∧ s < b.reservation_time + b.duration_minutes := by
  rw [checkTimeConflict_iff]
  simp [gt_iff_lt, add_zero]

/-- C8 counterexample: in local scope, a confirmed overlapping booking by
the same identity hash on platform P2 is still reported as a conflict for
a request on platform P1, so local scope does not restrict the conflict
detector to the request's platform. -/
theorem c8_local_scope_cross_platform_cex :
    (createBooking id 0 crossPlatformDB midRequest).2 =
      Outcome.reply 409 overlapResponse ∧
    midRequest.identity_scope = Scope.local_ ∧
    midRequest.platform_id = "P1" ∧
    crossPlatformDB.active_bookings.map ActiveBooking.platform_id = ["P2"] := by
  decide

/-- C8 amended: checkTimeConflict reads only the identity hash, the status
and the interval of each stored booking: rewriting every booking's
platform_id and identity_scope arbitrarily never changes its result, so
the detector treats local and global scope (and all platforms) alike. -/
theorem c8_conflict_ignores_platform_and_scope (db : DBState) (sc : String)
    (s d : Int) (p : ActiveBooking → String) (sch : ActiveBooking → Scope) :
    checkTimeConflict
      { db with active_bookings := db.active_bookings.map (fun b =>
          { b with platform_id := p b, identity_scope := sch b }) } sc s d =
      checkTimeConflict db sc s d := by
  unfold checkTimeConflict
  simp only [List.any_map]
  congr 1

/-- C2: the score computed by GET /score is an integer that always lies in
[0, 100]; moreover after n no-show reports for a fresh identity it equals
max 0 (100 - 30 n), so repeated no_show events drive it to exactly 0 and
never below. -/
theorem c2_score_bounded_and_clamped :
    (∀ (db : DBState) (sc : String) (scope : Scope) (now : Int),
        0 ≤ scoreValue db sc scope now ∧ scoreValue db sc scope now ≤ 100) ∧
    (∀ (h : String → String) (now : Int) (req : NoShowRequest) (n : Nat),
        req.platform_id ≠ "" → req.customer_hash ≠ "" →
        req.restaurant_hash ≠ "" →
        scoreValue (iterNoShow h now req n) (h req.customer_hash)
          req.identity_scope now = max 0 (100 - 30 * (n : Int))) := by
  constructor
  · intro db sc scope now
    unfold scoreValue
    exact ⟨le_max_left _ _, max_le (by norm_num) (min_le_left _ _)⟩
  · intro h now req n hp hc hr
    unfold scoreValue
    rw [iterNoShow_events h now req hp hc hr n]
    have hev : activeEventRow (h req.customer_hash) req.identity_scope now
        (noShowEvent h now req) = true := by
      simp [activeEventRow, noShowEvent, minutesPerDay]
    rw [List.filter_eq_self.mpr
      (fun a ha => by rw [List.eq_of_mem_replicate ha]; exact hev)]
    rw [List.map_replicate, List.sum_replicate]
    have h1 : (noShowEvent h now req).score_delta = -30 := rfl
    rw [h1, nsmul_eq_mul]
    have h2 : (100 : ℤ) + (n : ℤ) * (-30) = 100 - 30 * (n : ℤ) := by ring
    rw [h2, min_eq_right (by omega : (100 : ℤ) - 30 * (n : ℤ) ≤ 100)]

/-- C2 witness: a fresh identity scores within bounds, and five no-show
reports clamp the score to max 0 (100 - 150) = 0. -/
theorem c2_score_bounded_and_clamped_witness :
    (0 ≤ scoreValue emptyDB "c" Scope.local_ 0 ∧
      scoreValue emptyDB "c" Scope.local_ 0 ≤ 100) ∧
    scoreValue (iterNoShow id 0 plainNoShowReq 5) "c" Scope.local_ 0 =
      max 0 (100 - 30 * (5 : Int)) :=
  ⟨c2_score_bounded_and_clamped.1 emptyDB "c" Scope.local_ 0,
   c2_score_bounded_and_clamped.2 id 0 plainNoShowReq 5
     (by decide) (by decide) (by decide)⟩

/-- C9 counterexample: a successful GET /score reply carries exactly the
two fields score and scope; no recommendation field exists, refuting that
the response contains a recommendation derived from the score. -/
theorem c9_no_recommendation_field_cex :
    (getScore id 0 emptyDB plainScoreReq).2 =
      ScoreOutcome.reply
        [("score", JsonVal.num 100), ("scope", JsonVal.str "local")] ∧
    List.lookup "recommendation"
      [(("score" : String), JsonVal.num 100), ("scope", JsonVal.str "local")] =
      none := by
  decide

/-- C9 amended: every successful GET /score reply is exactly the two-field
object with the clamped score and the scope string; its field names are
["score", "scope"] and it has no recommendation field. -/
theorem c9_reply_has_only_score_and_scope (h : String → String) (now : Int)
    (db : DBState) (req : ScoreRequest)
    (hp : req.platform_id ≠ "") :
    (getScore h now db req).2 =
      ScoreOutcome.reply
        [("score", JsonVal.num
            (scoreValue db (h req.customer_hash) req.identity_scope now)),
         ("scope", JsonVal.str (scopeStr req.identity_scope))] ∧
    (∀ fields, (getScore h now db req).2 = ScoreOutcome.reply fields →
      fields.map Prod.fst = ["score", "scope"] ∧
      List.lookup "recommendation" fields = none) := by
  have hmain : (getScore h now db req).2 =
      ScoreOutcome.reply
        [("score", JsonVal.num
            (scoreValue db (h req.customer_hash) req.identity_scope now)),
         ("scope", JsonVal.str (scopeStr req.identity_scope))] := by
    unfold getScore
    rw [if_neg hp]
  refine ⟨hmain, ?_⟩
  intro fields hf
  rw [hmain] at hf
  injection hf with hf
  subst hf
  exact ⟨rfl, rfl⟩

/-- C9 amended witness: the concrete reply for a fresh identity. -/
theorem c9_reply_has_only_score_and_scope_witness :
    (getScore id 0 emptyDB plainScoreReq).2 =
      ScoreOutcome.reply
        [("score", JsonVal.num (scoreValue emptyDB "c" Scope.local_ 0)),
         ("scope", JsonVal.str (scopeStr Scope.local_))] ∧
    (∀ fields, (getScore id 0 emptyDB plainScoreReq).2 =
        ScoreOutcome.reply fields →
      fields.map Prod.fst = ["score", "scope"] ∧
      List.lookup "recommendation" fields = none) :=
  c9_reply_has_only_score_and_scope id 0 emptyDB plainScoreReq (by decide)

/-- C4 counterexample: at time 0 the state holds an unexpired overlap event
for identity hash "c" in local scope, yet the conflicting createBooking
inserts a plain overlap event (delta -10, mild, expiring at minute 20160 =
14 days), not a repeat_overlap with delta -20. -/
theorem c4_no_repeat_classification_cex :
    (∃ e ∈ recentOverlapDB.behavior_events,
        e.customer_hash = "c" ∧ e.identity_scope = Scope.local_ ∧
        e.event_type = EventType.overlap ∧ e.expires_at > 0) ∧
    (createBooking id 0 recentOverlapDB midRequest).1.behavior_events.getLast? =
      some ⟨"c", "P1", Scope.local_, EventType.overlap, Severity.mild, -10,
            0, 20160, "r"⟩ ∧
    (createBooking id 0 recentOverlapDB midRequest).1.behavior_events.getLast?.map
      BehaviorEvent.event_type ≠ some EventType.repeat_overlap := by
  decide

/-- C4 amended: the server.js createBooking conflict path always records a
plain overlap event (delta -10, mild, 14-day TTL) regardless of prior
unexpired overlap events; the repeat classification is implemented only by
part_004's /event/overlap handler, which — when an unexpired
overlap-family event exists for the identity+scope — inserts a
repeat_overlap event with delta -20, severity medium and a 90-day TTL. -/
theorem c4_repeat_classification_only_in_part4 :
    (∀ (h : String → String) (now : Int) (db : DBState) (req : CreateRequest),
        req.idempotency_key.getD "" ≠ "" → req.platform_id ≠ "" →
        req.customer_hash ≠ "" → req.restaurant_hash ≠ "" →
        checkIdempotency db (req.idempotency_key.getD "") = none →
        checkTimeConflict db (h req.customer_hash) req.reservation_time
          req.duration_minutes = true →
        (createBooking h now db req).1.behavior_events =
          db.behavior_events ++ [overlapEvent h now req] ∧
        (overlapEvent h now req).event_type = EventType.overlap ∧
        (overlapEvent h now req).score_delta = -10) ∧
    (∀ (h : String → String) (now : Int) (st : P4State)
        (customer platform rest : String) (scope : Scope),
        hasRecentOverlap st (h customer) platform scope now = true →
        (eventOverlap h now st customer platform rest scope).2 =
          EventType.repeat_overlap ∧
        (eventOverlap h now st customer platform rest scope).1.behavior_events =
          st.behavior_events ++
            [⟨h customer, platform, scope, EventType.repeat_overlap,
              Severity.medium, -20, now, now + 90 * minutesPerDay, h rest⟩]) := by
  constructor
  · intro h now db req hkey hp hc hr hfresh hconf
    rw [createBooking_valid_eq h now db req hkey hp hc hr hfresh, if_pos hconf]
    exact ⟨rfl, rfl, rfl⟩
  · intro h now st customer platform rest scope hrec
    have hrec1 : hasRecentOverlap
        (getOrCreateScore st (h customer) platform scope)
        (h customer) platform scope now = true := by
      unfold hasRecentOverlap at *
      rw [getOrCreateScore_behavior_events]
      exact hrec
    constructor
    · simp only [eventOverlap, hrec1, if_true]
    · simp only [eventOverlap, hrec1, if_true, applyBehaviorEvent, SCORE_RULES]
      simp [getOrCreateScore_behavior_events]

/-- C4 witness: the conflicting booking against `recentOverlapDB` appends a
plain overlap event, and part_004's handler on `recentOverlapP4` appends a
repeat_overlap event with delta -20. -/
theorem c4_repeat_classification_only_in_part4_witness :
    ((createBooking id 0 recentOverlapDB midRequest).1.behavior_events =
       recentOverlapDB.behavior_events ++ [overlapEvent id 0 midRequest] ∧
     (overlapEvent id 0 midRequest).event_type = EventType.overlap ∧
     (overlapEvent id 0 midRequest).score_delta = -10) ∧
    ((eventOverlap id 0 recentOverlapP4 "c" "P1" "r" Scope.local_).2 =
       EventType.repeat_overlap ∧
     (eventOverlap id 0 recentOverlapP4 "c" "P1" "r" Scope.local_).1.behavior_events =
       recentOverlapP4.behavior_events ++
         [⟨"c", "P1", Scope.local_, EventType.repeat_overlap, Severity.medium,
           -20, 0, 0 + 90 * minutesPerDay, "r"⟩]) :=
  ⟨c4_repeat_classification_only_in_part4.1 id 0 recentOverlapDB midRequest
     (by decide) (by decide) (by decide) (by decide) rfl (by decide),
   c4_repeat_classification_only_in_part4.2 id 0 recentOverlapP4 "c" "P1" "r"
     Scope.local_ (by decide)⟩

/-- C5 counterexample: cancelling the confirmed booking that starts 30
minutes from now records the late_cancel event, but the response signal is
BOOKING_CANCELLED — not LATE_CANCEL_PENALTY as the claim states. -/
theorem c5_late_cancel_signal_cex :
    (cancelBooking id 0 soonBookingDB soonCancelReq).2 =
      Outcome.reply 200 cancelledResponse ∧
    cancelledResponse.signal = "BOOKING_CANCELLED" ∧
    cancelledResponse.signal ≠ "LATE_CANCEL_PENALTY" ∧
    (cancelBooking id 0 soonBookingDB soonCancelReq).1.behavior_events.map
      BehaviorEvent.event_type = [EventType.late_cancel] := by
  decide

/-- C5 amended: for every validated cancel matching a confirmed booking,
the late window (strictly less than 2 h before start and strictly less
than 1 h past it) records the late_cancel event with delta -15, and
outside the window nothing is recorded; in both cases server.js answers
status 200 with signal BOOKING_CANCELLED. -/
theorem c5_cancel_window_vs_signal (h : String → String) (now : Int)
    (db : DBState) (req : CancelRequest)
    (hp : req.platform_id ≠ "")
    (hc : req.customer_hash ≠ "")
    (hr : req.restaurant_hash ≠ "")
    (hfound : (db.active_bookings.filter
      (cancelMatch (h req.customer_hash) req.reservation_time)).length ≠ 0) :
    ((req.reservation_time - now < 120 ∧ req.reservation_time - now > -60) →
      (cancelBooking h now db req).1.behavior_events =
        db.behavior_events ++ [lateCancelEvent h now req] ∧
      (lateCancelEvent h now req).score_delta = -15 ∧
      (cancelBooking h now db req).2 = Outcome.reply 200 cancelledResponse) ∧
    (¬(req.reservation_time - now < 120 ∧ req.reservation_time - now > -60) →
      (cancelBooking h now db req).1.behavior_events = db.behavior_events ∧
      (cancelBooking h now db req).2 = Outcome.reply 200 cancelledResponse) := by
  rw [cancelBooking_valid_eq h now db req hp hc hr hfound]
  constructor
  · intro hwin
    rw [if_pos hwin]
    exact ⟨rfl, rfl, rfl⟩
  · intro hwin
    rw [if_neg hwin]
    exact ⟨rfl, rfl⟩

/-- C5 amended witness: the 30-minutes-before-start cancellation. -/
theorem c5_cancel_window_vs_signal_witness :
    ((soonCancelReq.reservation_time - 0 < 120 ∧
        soonCancelReq.reservation_time - 0 > -60) →
      (cancelBooking id 0 soonBookingDB soonCancelReq).1.behavior_events =
        soonBookingDB.behavior_events ++ [lateCancelEvent id 0 soonCancelReq] ∧
      (lateCancelEvent id 0 soonCancelReq).score_delta = -15 ∧
      (cancelBooking id 0 soonBookingDB soonCancelReq).2 =
        Outcome.reply 200 cancelledResponse) ∧
    (¬(soonCancelReq.reservation_time - 0 < 120 ∧
        soonCancelReq.reservation_time - 0 > -60) →
      (cancelBooking id 0 soonBookingDB soonCancelReq).1.behavior_events =
        soonBookingDB.behavior_events ∧
      (cancelBooking id 0 soonBookingDB soonCancelReq).2 =
        Outcome.reply 200 cancelledResponse) :=
  c5_cancel_window_vs_signal id 0 soonBookingDB soonCancelReq
    (by decide) (by decide) (by decide) (by decide)

end ClearSlot
